import Mathlib

/-!
Verification of the Property Investment Analytics Engine
(`api/app/routers/reports.py`): period resolution, cash-flow aggregation,
derived metrics, the IRR solver, portfolio aggregation and the tax export.

Modelling conventions:
* Monetary amounts and percentages are exact rationals (`ℚ`); the display rounding of the source to two decimals (`round(x, 2)` applied when serialising
  each report field) is omitted, since it is presentation-layer formatting;
  the `round` inside the return value of the IRR solver is kept, as it is part of
  the contract of the solver.
* Dates are (year, month, day) triples of integers with lexicographic order.
* Database queries become filters/sums over in-memory lists carried by a
  per-property `Snapshot`.
* The Python float power `(1+r) ** t` (fractional exponent) has no exact
  rational counterpart, so the IRR solver is parameterised by the power
  function `pw`; every claim proved about the solver holds for all `pw`.
-/

namespace Myfintech

/-- Calendar date as stored by the persistence layer (date columns). -/
structure Date where
  year  : Int
  month : Int
  day   : Int
deriving DecidableEq, Repr

/-- Lexicographic `≤` on dates, as Boolean (mirrors SQL date comparison). -/
def Date.le (a b : Date) : Bool :=
  (a.year < b.year) ||
  (a.year == b.year && (a.month < b.month ||
    (a.month == b.month && a.day ≤ b.day)))

/-- Lexicographic `<` on dates. -/
def Date.lt (a b : Date) : Bool :=
  (a.year < b.year) ||
  (a.year == b.year && (a.month < b.month ||
    (a.month == b.month && a.day < b.day)))

/-- Gregorian leap-year test (`calendar.isleap`). -/
def isLeap (y : Int) : Bool :=
  y % 4 == 0 && (y % 100 != 0 || y % 400 == 0)

/-- Number of days in a month (`calendar.monthrange(year, mon)[1]`). -/
def daysInMonth (y m : Int) : Int :=
  if m == 2 then (if isLeap y then 29 else 28)
  else if m == 4 || m == 6 || m == 9 || m == 11 then 30
  else 31

/-- Days since the civil epoch 1970-01-01 (standard days-from-civil
algorithm); used only to form day differences `(d - t0).days`. -/
def Date.toDayNumber (d : Date) : Int :=
  let y := d.year - (if d.month ≤ 2 then 1 else 0)
  let era : Int := (if 0 ≤ y then y else y - 399) / 400
  let yoe := y - era * 400
  let mp := d.month + (if 2 < d.month then -3 else 9)
  let doy := (153 * mp + 2) / 5 + d.day - 1
  let doe := yoe * 365 + yoe / 4 - yoe / 100 + doy
  era * 146097 + doe - 719468

/-- `(d2 - d1).days` for Python `date` subtraction. -/
def daysBetween (d1 d2 : Date) : Int :=
  d2.toDayNumber - d1.toDayNumber

/-- Inclusive month count between two dates:
`((end.year - start.year) * 12 + end.month - start.month) + 1`. -/
def monthsInRange (s e : Date) : Int :=
  (e.year - s.year) * 12 + e.month - s.month + 1

-- ─── Data model (§3): immutable snapshot rows read by the engine ───

/-- `Property` row (the fields the engine reads). -/
structure PropertyRow where
  purchase_date      : Option Date
  purchase_price     : Option ℚ
  closing_costs      : Option ℚ
  current_value      : Option ℚ
  is_property_managed : Bool
  management_fee_pct : Option ℚ
  address            : String
deriving DecidableEq, Repr

/-- `Unit` row. -/
structure UnitRow where
  id          : Nat
  is_rentable : Bool
deriving DecidableEq, Repr

/-- `Lease` row. -/
structure LeaseRow where
  id            : Nat
  unit_id       : Nat
  lease_start   : Date
  lease_end     : Option Date
  monthly_rent  : ℚ
  status        : String
  move_out_date : Option Date
deriving DecidableEq, Repr

/-- `RentCharge` row. -/
structure RentChargeRow where
  lease_id    : Nat
  charge_date : Date
  amount      : ℚ
deriving DecidableEq, Repr

/-- `Payment` row. -/
structure PaymentRow where
  lease_id     : Nat
  payment_date : Date
  amount       : ℚ
deriving DecidableEq, Repr

/-- `Loan` row (nullable money columns kept as `Option`, read via `or 0`). -/
structure LoanRow where
  monthly_payment : Option ℚ
  original_amount : Option ℚ
  current_balance : Option ℚ
deriving DecidableEq, Repr

/-- `PropertyCost` row. -/
structure PropertyCostRow where
  category  : String
  amount    : ℚ
  frequency : String
  is_active : Bool
deriving DecidableEq, Repr

/-- `MaintenanceExpense` row. -/
structure MaintenanceRow where
  expense_date : Date
  amount       : ℚ
  category     : String
  is_capex     : Bool
deriving DecidableEq, Repr

/-- `CapitalEvent` row (`amount` is signed). -/
structure CapitalEventRow where
  event_date : Date
  event_type : String
  amount     : ℚ
deriving DecidableEq, Repr

/-- All rows belonging to one property, as fetched by the queries of the router
(filtered by `property_id` at the database; lease/charge/payment linkage by
id is re-checked in the engine exactly as the source does). -/
structure Snapshot where
  prop           : PropertyRow
  units          : List UnitRow
  leases         : List LeaseRow
  rent_charges   : List RentChargeRow
  payments       : List PaymentRow
  loans          : List LoanRow
  costs          : List PropertyCostRow
  maintenance    : List MaintenanceRow
  capital_events : List CapitalEventRow
deriving DecidableEq, Repr

-- ─── Period resolver (§4.1) ───

/-- `_parse_month`: `(first_day, last_day)` of `(year, month)`. -/
def parse_month (year month : Int) : Date × Date :=
  (⟨year, month, 1⟩, ⟨year, month, daysInMonth year month⟩)

/-- `_quarter_range`. -/
def quarter_range (year month : Int) : Date × Date :=
  let q := (month - 1) / 3
  let qStartMonth := q * 3 + 1
  let qEndMonth := qStartMonth + 2
  (⟨year, qStartMonth, 1⟩, ⟨year, qEndMonth, daysInMonth year qEndMonth⟩)

/-- `_year_range`. -/
def year_range (year : Int) : Date × Date :=
  (⟨year, 1, 1⟩, ⟨year, 12, 31⟩)

/-- `_prior_year_range`. -/
def prior_year_range (year : Int) : Date × Date :=
  (⟨year - 1, 1, 1⟩, ⟨year - 1, 12, 31⟩)

/-- `_bound_by_purchase`: clip a range so it does not start before the
purchase date of the property; a range entirely before it collapses to
`(end, end)`. -/
def bound_by_purchase (s e : Date) (purchase_date : Option Date) :
    Date × Date :=
  match purchase_date with
  | none => (s, e)
  | some pd =>
    if Date.lt e pd then (e, e)
    else if Date.lt s pd then (pd, e) else (s, e)

-- ─── Cash-flow aggregator (§4.2), as the closures in `_property_metrics` ───

/-- Ids of the rentable units of the property (`Unit.is_rentable == True`). -/
def rentableUnitIds (snap : Snapshot) : List Nat :=
  ((snap.units.filter (fun u => u.is_rentable)).map (fun u => u.id))

/-- Ids of all leases sitting on rentable units of the property. -/
def leaseIdsOf (snap : Snapshot) : List Nat :=
  ((snap.leases.filter (fun l => l.unit_id ∈ rentableUnitIds snap)).map
    (fun l => l.id))

/-- `rent_charged`: formal `RentCharge` amounts dated in the range, over the
leases of the property (0 when the property has no leases). -/
def rent_charged (snap : Snapshot) (dStart dEnd : Date) : ℚ :=
  if leaseIdsOf snap = [] then 0
  else ((snap.rent_charges.filter (fun c =>
    c.lease_id ∈ leaseIdsOf snap ∧
    Date.le dStart c.charge_date ∧ Date.le c.charge_date dEnd)).map
      (fun c => c.amount)).sum

/-- Monthly rent summed over status-active leases on rentable units that
overlap the range (`lease_start ≤ end` and `lease_end` unset or
`≥ start`) — the fallback aggregate inside `rent_roll`. -/
def activeOverlapRent (snap : Snapshot) (dStart dEnd : Date) : ℚ :=
  ((snap.leases.filter (fun l =>
    l.unit_id ∈ rentableUnitIds snap ∧
    Date.le l.lease_start dEnd ∧
    l.lease_end.all (fun le₀ => Date.le dStart le₀) ∧
    l.status = "active")).map (fun l => l.monthly_rent)).sum

/-- `rent_roll`: formal charges when positive, else the active-lease
fallback `monthly_rent × months_in_period`. -/
def rent_roll (snap : Snapshot) (dStart dEnd : Date) : ℚ :=
  let actual := rent_charged snap dStart dEnd
  if 0 < actual then actual
  else if rentableUnitIds snap = [] then 0
  else activeOverlapRent snap dStart dEnd * (monthsInRange dStart dEnd : ℚ)

/-- `rent_collected`: `Payment` amounts dated in the range. -/
def rent_collected (snap : Snapshot) (dStart dEnd : Date) : ℚ :=
  if leaseIdsOf snap = [] then 0
  else ((snap.payments.filter (fun p =>
    p.lease_id ∈ leaseIdsOf snap ∧
    Date.le dStart p.payment_date ∧ Date.le p.payment_date dEnd)).map
      (fun p => p.amount)).sum

/-- `maintenance_opex`: non-capex maintenance dated in the range. -/
def maintenance_opex (snap : Snapshot) (dStart dEnd : Date) : ℚ :=
  ((snap.maintenance.filter (fun m =>
    m.is_capex = false ∧
    Date.le dStart m.expense_date ∧ Date.le m.expense_date dEnd)).map
      (fun m => m.amount)).sum

/-- `maintenance_capex`: capex maintenance dated in the range. -/
def maintenance_capex (snap : Snapshot) (dStart dEnd : Date) : ℚ :=
  ((snap.maintenance.filter (fun m =>
    m.is_capex = true ∧
    Date.le dStart m.expense_date ∧ Date.le m.expense_date dEnd)).map
      (fun m => m.amount)).sum

/-- `property_costs_monthly_equiv`: active costs normalised to a monthly
rate (monthly ×1, quarterly ÷3, annual ÷12; `one_time` falls through all
branches and contributes 0). -/
def property_costs_monthly_equiv (costs : List PropertyCostRow) : ℚ :=
  costs.foldl (fun total c =>
    if c.is_active = false then total
    else if c.frequency = "monthly" then total + c.amount
    else if c.frequency = "quarterly" then total + c.amount / 3
    else if c.frequency = "annual" then total + c.amount / 12
    else total) 0

/-- `category_monthly_equiv`: same normalisation restricted to a category. -/
def category_monthly_equiv (costs : List PropertyCostRow) (cat : String) : ℚ :=
  costs.foldl (fun total c =>
    if c.is_active = false ∨ c.category ≠ cat then total
    else if c.frequency = "monthly" then total + c.amount
    else if c.frequency = "quarterly" then total + c.amount / 3
    else if c.frequency = "annual" then total + c.amount / 12
    else total) 0

/-- Active property costs (`is_active == True` filter in the query). -/
def activeCosts (snap : Snapshot) : List PropertyCostRow :=
  snap.costs.filter (fun c => c.is_active)

/-- `monthly_debt_service = sum(float(l.monthly_payment or 0) ...)`. -/
def monthlyDebtService (snap : Snapshot) : ℚ :=
  (snap.loans.map (fun l => l.monthly_payment.getD 0)).sum

/-- `total_original_loan_amount`. -/
def totalOriginalLoanAmount (snap : Snapshot) : ℚ :=
  (snap.loans.map (fun l => l.original_amount.getD 0)).sum

/-- `total_current_balance`. -/
def totalCurrentBalance (snap : Snapshot) : ℚ :=
  (snap.loans.map (fun l => l.current_balance.getD 0)).sum

/-- `total_equity_invested = purchase_price + closing_costs − Σ original`. -/
def totalEquityInvested (snap : Snapshot) : ℚ :=
  snap.prop.purchase_price.getD 0 + snap.prop.closing_costs.getD 0
    - totalOriginalLoanAmount snap

/-- `current_value = float(prop.current_value or 0)`. -/
def currentValue (snap : Snapshot) : ℚ :=
  snap.prop.current_value.getD 0

-- ─── IRR solver (§4.4), `_irr` ───

/-- Python `round(q, 2)` (round half to even) on exact rationals. -/
def bankersRound (q : ℚ) : Int :=
  let f := ⌊q⌋
  let frac := q - f
  if frac < 1/2 then f
  else if 1/2 < frac then f + 1
  else if f % 2 = 0 then f else f + 1

/-- Round to two decimals, half to even. -/
def round2 (q : ℚ) : ℚ := (bankersRound (q * 100) : ℚ) / 100

/-- `sorted(cash_flows, key=lambda x: x[0])`. -/
def sortedCashFlows (flows : List (Date × ℚ)) : List (Date × ℚ) :=
  flows.mergeSort (fun a b => Date.le a.1 b.1)

/-- Guard-and-prepare stage of `_irr`: `None` when fewer than two flows or
when all amounts share a sign; otherwise the `(amount, time)` series with
times in fractional 365.25-day years from the earliest date. -/
def irrSeries (flows : List (Date × ℚ)) : Option (List (ℚ × ℚ)) :=
  if flows.length < 2 then none
  else
    match sortedCashFlows flows with
    | [] => none
    | (t0, a0) :: rest =>
      let sorted := (t0, a0) :: rest
      let times := sorted.map (fun x => (daysBetween t0 x.1 : ℚ) / (36525/100 : ℚ))
      let amounts := sorted.map (fun x => x.2)
      if amounts.all (fun a => 0 ≤ a) || amounts.all (fun a => a ≤ 0) then none
      else some (amounts.zip times)

/-- `npv(r) = Σ a / (1+r)^t`, with the float power abstracted as `pw`. -/
def npvFun (pw : ℚ → ℚ → ℚ) (ser : List (ℚ × ℚ)) (r : ℚ) : ℚ :=
  (ser.map (fun x => x.1 / pw (1 + r) x.2)).sum

/-- `npv_prime(r) = Σ −t·a / (1+r)^(t+1)`, power abstracted as `pw`. -/
def npvPrimeFun (pw : ℚ → ℚ → ℚ) (ser : List (ℚ × ℚ)) (r : ℚ) : ℚ :=
  (ser.map (fun x => (-x.2 * x.1) / pw (1 + r) (x.2 + 1))).sum

/-- The Newton-Raphson loop of `_irr`: up to `fuel` iterations from guess
`r`; stop on tiny derivative, stop on `|Δr| < 1e-8`, and clamp any update
`≤ −1` to `−0.999` before the next iteration. -/
def newtonIter (f fp : ℚ → ℚ) : Nat → ℚ → ℚ
  | 0, r => r
  | n + 1, r =>
    let fv := f r
    let fpv := fp r
    if |fpv| < 1/1000000000000 then r
    else
      let rNew := r - fv / fpv
      if |rNew - r| < 1/100000000 then rNew
      else
        let r2 := if rNew ≤ -1 then -(999/1000 : ℚ) else rNew
        newtonIter f fp n r2

/-- The rates at which the loop of `newtonIter` evaluates `f`/`fp`
(both are evaluated at the top of each executed iteration). -/
def newtonEvalPoints (f fp : ℚ → ℚ) : Nat → ℚ → List ℚ
  | 0, _ => []
  | n + 1, r =>
    let fv := f r
    let fpv := fp r
    r ::
      (if |fpv| < 1/1000000000000 then []
      else
        let rNew := r - fv / fpv
        if |rNew - r| < 1/100000000 then []
        else
          let r2 := if rNew ≤ -1 then -(999/1000 : ℚ) else rNew
          newtonEvalPoints f fp n r2)

/-- `_irr`: guards, then 100 Newton iterations from `r₀ = 0.10`; `None`
when the final rate is `≤ −1` (the `isfinite` test of the source is
vacuous over exact rationals), else the rate as a percentage rounded to
two decimals. -/
def irrSolve (pw : ℚ → ℚ → ℚ) (cash_flows : List (Date × ℚ)) : Option ℚ :=
  match irrSeries cash_flows with
  | none => none
  | some ser =>
    let r := newtonIter (npvFun pw ser) (npvPrimeFun pw ser) 100 (1/10)
    if r ≤ -1 then none else some (round2 (r * 100))

/-- All rates at which `irrSolve` evaluates `npv`/`npv_prime`. -/
def irrEvalRates (pw : ℚ → ℚ → ℚ) (cash_flows : List (Date × ℚ)) : List ℚ :=
  match irrSeries cash_flows with
  | none => []
  | some ser =>
    newtonEvalPoints (npvFun pw ser) (npvPrimeFun pw ser) 100 (1/10)

-- ─── Report structure returned by `_property_metrics` ───

/-- The `"monthly"` block of the report (exact values; display rounding
omitted). -/
structure MonthlyBucket where
  rent_charged   : ℚ
  rent_collected : ℚ
  delinquency    : ℚ
  opex           : ℚ
  capex          : ℚ
  noi            : ℚ
  debt_service   : ℚ
  cash_flow      : ℚ
  occupancy_pct  : ℚ
  rentable_units : Nat
  occupied_units : Nat
deriving DecidableEq, Repr

/-- The `"ytd"` block of the report. -/
structure YtdBucket where
  months         : Int
  rent_charged   : ℚ
  rent_collected : ℚ
  delinquency    : ℚ
  opex           : ℚ
  capex          : ℚ
  noi            : ℚ
  debt_service   : ℚ
  cash_flow      : ℚ
deriving DecidableEq, Repr

/-- The `"quarterly"` block of the report. -/
structure QuarterlyBucket where
  rent_charged     : ℚ
  rent_collected   : ℚ
  opex             : ℚ
  noi              : ℚ
  debt_service     : ℚ
  cash_flow        : ℚ
  cash_on_cash_ytd : Option ℚ
deriving DecidableEq, Repr

/-- The `"annual"` block of the report. -/
structure AnnualBucket where
  rent_charged   : ℚ
  rent_collected : ℚ
  opex           : ℚ
  capex          : ℚ
  noi            : ℚ
  debt_service   : ℚ
  cash_flow      : ℚ
  cap_rate       : Option ℚ
  irr            : Option ℚ
  noi_prior_year : ℚ
  noi_yoy_pct    : Option ℚ
  total_equity_invested : ℚ
  current_equity : ℚ
deriving DecidableEq, Repr

/-- The `"lifetime"` block of the report (present when requested). -/
structure LifetimeBucket where
  start_date     : Date
  months         : Int
  rent_charged   : ℚ
  rent_collected : ℚ
  delinquency    : ℚ
  opex           : ℚ
  capex          : ℚ
  noi            : ℚ
  debt_service   : ℚ
  cash_flow      : ℚ
  avg_monthly_noi : ℚ
  avg_monthly_cash_flow : ℚ
  cap_rate       : Option ℚ
  irr            : Option ℚ
  current_equity : ℚ
  total_equity_invested : ℚ
deriving DecidableEq, Repr

/-- The report of `_property_metrics` (metadata and the blocks the claims
concern; per-category expense breakdowns and quarterly turnover statistics
are not modelled). -/
structure Report where
  property_address : String
  year     : Int
  month    : Int
  monthly  : MonthlyBucket
  ytd      : YtdBucket
  quarterly : QuarterlyBucket
  annual   : AnnualBucket
  lifetime : Option LifetimeBucket
deriving DecidableEq, Repr

-- ─── `_property_metrics`, per bucket ───

/-- The month range after purchase-date bounding. -/
def monthRangeB (snap : Snapshot) (year month : Int) : Date × Date :=
  bound_by_purchase (parse_month year month).1 (parse_month year month).2
    snap.prop.purchase_date

/-- The quarter range after purchase-date bounding. -/
def quarterRangeB (snap : Snapshot) (year month : Int) : Date × Date :=
  bound_by_purchase (quarter_range year month).1 (quarter_range year month).2
    snap.prop.purchase_date

/-- The calendar-year range after purchase-date bounding. -/
def yearRangeB (snap : Snapshot) (year : Int) : Date × Date :=
  bound_by_purchase (year_range year).1 (year_range year).2
    snap.prop.purchase_date

/-- The prior-year range after purchase-date bounding. -/
def priorYearRangeB (snap : Snapshot) (year : Int) : Date × Date :=
  bound_by_purchase (prior_year_range year).1 (prior_year_range year).2
    snap.prop.purchase_date

/-- The YTD range (Jan 1 through the bounded month end), bounded. -/
def ytdRangeB (snap : Snapshot) (year month : Int) : Date × Date :=
  bound_by_purchase ⟨year, 1, 1⟩ (monthRangeB snap year month).2
    snap.prop.purchase_date

/-- `max(1, inclusive months) if end ≥ start else 0` — the recalculated
month count used for the YTD, annual and prior-year buckets. -/
def guardedMonths (s e : Date) : Int :=
  if Date.le s e then max 1 (monthsInRange s e) else 0

/-- Count of active leases on rentable units with `lease_start ≤ m_end`. -/
def occupiedMonth (snap : Snapshot) (year month : Int) : Nat :=
  if rentableUnitIds snap = [] then 0
  else (snap.leases.filter (fun l =>
    l.unit_id ∈ rentableUnitIds snap ∧ l.status = "active" ∧
    Date.le l.lease_start (monthRangeB snap year month).2)).length

/-- The `"monthly"` block computation. -/
def monthlyBucketOf (snap : Snapshot) (year month : Int) : MonthlyBucket :=
  let m_start := (monthRangeB snap year month).1
  let m_end := (monthRangeB snap year month).2
  let monthly_fixed_costs := property_costs_monthly_equiv (activeCosts snap)
  let m_charged := rent_roll snap m_start m_end
  let m_collected := rent_collected snap m_start m_end
  let m_opex_maint := maintenance_opex snap m_start m_end
  let m_opex := m_opex_maint + monthly_fixed_costs
  let m_capex := maintenance_capex snap m_start m_end
  let m_noi := m_collected - m_opex
  let m_cash_flow := m_noi - monthlyDebtService snap
  let rentableCount := (snap.units.filter (fun u => u.is_rentable)).length
  let occ_pct : ℚ :=
    if rentableCount = 0 then 0
    else (occupiedMonth snap year month : ℚ) / (rentableCount : ℚ) * 100
  { rent_charged := m_charged, rent_collected := m_collected,
    delinquency := m_charged - m_collected, opex := m_opex, capex := m_capex,
    noi := m_noi, debt_service := monthlyDebtService snap,
    cash_flow := m_cash_flow, occupancy_pct := occ_pct,
    rentable_units := rentableCount,
    occupied_units := occupiedMonth snap year month }

/-- The `"ytd"` block computation. -/
def ytdBucketOf (snap : Snapshot) (year month : Int) : YtdBucket :=
  let ytd_start := (ytdRangeB snap year month).1
  let ytd_end := (ytdRangeB snap year month).2
  let monthly_fixed_costs := property_costs_monthly_equiv (activeCosts snap)
  let ytd_months := guardedMonths ytd_start ytd_end
  let ytd_charged := rent_roll snap ytd_start ytd_end
  let ytd_collected := rent_collected snap ytd_start ytd_end
  let ytd_opex_maint := maintenance_opex snap ytd_start ytd_end
  let ytd_capex := maintenance_capex snap ytd_start ytd_end
  let ytd_fixed := monthly_fixed_costs * (ytd_months : ℚ)
  let ytd_opex := ytd_opex_maint + ytd_fixed
  let ytd_debt := monthlyDebtService snap * (ytd_months : ℚ)
  let ytd_noi := ytd_collected - ytd_opex
  let ytd_cash_flow := ytd_noi - ytd_debt
  { months := ytd_months, rent_charged := ytd_charged,
    rent_collected := ytd_collected,
    delinquency := ytd_charged - ytd_collected, opex := ytd_opex,
    capex := ytd_capex, noi := ytd_noi, debt_service := ytd_debt,
    cash_flow := ytd_cash_flow }

/-- `cash_on_cash_ytd` (reported inside the quarterly block). -/
def cashOnCashYtd (snap : Snapshot) (year month : Int) : Option ℚ :=
  let teq := totalEquityInvested snap
  if 0 < teq then some ((ytdBucketOf snap year month).cash_flow / teq * 100)
  else none

/-- The `"quarterly"` block computation. -/
def quarterlyBucketOf (snap : Snapshot) (year month : Int) : QuarterlyBucket :=
  let q_start := (quarterRangeB snap year month).1
  let q_end := (quarterRangeB snap year month).2
  let monthly_fixed_costs := property_costs_monthly_equiv (activeCosts snap)
  let q_charged := rent_roll snap q_start q_end
  let q_collected := rent_collected snap q_start q_end
  let q_opex_maint := maintenance_opex snap q_start q_end
  let q_months := monthsInRange q_start q_end
  let q_fixed := monthly_fixed_costs * (q_months : ℚ)
  let q_opex := q_opex_maint + q_fixed
  let q_debt := monthlyDebtService snap * (q_months : ℚ)
  let q_noi := q_collected - q_opex
  let q_cash_flow := q_noi - q_debt
  { rent_charged := q_charged, rent_collected := q_collected,
    opex := q_opex, noi := q_noi, debt_service := q_debt,
    cash_flow := q_cash_flow,
    cash_on_cash_ytd := cashOnCashYtd snap year month }

/-- Prior-year NOI: collected minus (maintenance + fixed × months) over the
bounded prior-year range. -/
def priorYearNoi (snap : Snapshot) (year : Int) : ℚ :=
  let py_start := (priorYearRangeB snap year).1
  let py_end := (priorYearRangeB snap year).2
  let py_collected := rent_collected snap py_start py_end
  let py_opex_maint := maintenance_opex snap py_start py_end
  let py_months := guardedMonths py_start py_end
  py_collected - (py_opex_maint +
    property_costs_monthly_equiv (activeCosts snap) * (py_months : ℚ))

/-- Annual NOI over the bounded calendar-year range. -/
def annualNoi (snap : Snapshot) (year : Int) : ℚ :=
  let y_start := (yearRangeB snap year).1
  let y_end := (yearRangeB snap year).2
  let y_collected := rent_collected snap y_start y_end
  let y_opex_maint := maintenance_opex snap y_start y_end
  let y_months := guardedMonths y_start y_end
  y_collected - (y_opex_maint +
    property_costs_monthly_equiv (activeCosts snap) * (y_months : ℚ))

/-- `current_equity = current_value − Σ loan.current_balance`. -/
def currentEquity (snap : Snapshot) : ℚ :=
  currentValue snap - totalCurrentBalance snap

/-- Earliest recorded payment date over the leases of the property
(`func.min`, `None` when no rows match). -/
def earliestPaymentDate (snap : Snapshot) : Option Date :=
  ((snap.payments.filter (fun p => p.lease_id ∈ leaseIdsOf snap)).map
    (fun p => p.payment_date)).foldl
    (fun acc d =>
      match acc with
      | none => some d
      | some a => some (if Date.le d a then d else a)) none

/-- Earliest recorded rent-charge date over the leases of the property (query
guarded by `lease_ids`, `None` when it is empty or no rows match). -/
def earliestChargeDate (snap : Snapshot) : Option Date :=
  if leaseIdsOf snap = [] then none
  else ((snap.rent_charges.filter (fun c => c.lease_id ∈ leaseIdsOf snap)).map
    (fun c => c.charge_date)).foldl
    (fun acc d =>
      match acc with
      | none => some d
      | some a => some (if Date.le d a then d else a)) none

/-- Acquisition-date resolution for the IRR block: `purchase_date`, else
the earliest payment when the property has leases. -/
def resolvedPurchaseDate (snap : Snapshot) : Option Date :=
  match snap.prop.purchase_date with
  | some d => some d
  | none => if leaseIdsOf snap = [] then none else earliestPaymentDate snap

/-- Capital events sorted by `event_date` (the `ORDER BY` of the query). -/
def sortedCapitalEvents (snap : Snapshot) : List CapitalEventRow :=
  snap.capital_events.mergeSort (fun a b => Date.le a.event_date b.event_date)

/-- Operating cash flow of one year appended to the IRR series:
`(year-end or today, collected − opex − debt_service)` over the bounded,
capped range. -/
def irrYearFlow (today : Date) (snap : Snapshot) (year yr : Int) :
    Date × ℚ :=
  let yr_s := (yearRangeB snap yr).1
  let yr_e := (yearRangeB snap yr).2
  let yr_end_cap := if yr < year then yr_e else today
  let yr_collected := rent_collected snap yr_s yr_end_cap
  let yr_opex_m := maintenance_opex snap yr_s yr_end_cap
  let yr_months : Int :=
    (yr_end_cap.month - yr_s.month + 1) + (yr_end_cap.year - yr_s.year) * 12
  let yr_opex := yr_opex_m +
    property_costs_monthly_equiv (activeCosts snap) * (yr_months : ℚ)
  let yr_debt := monthlyDebtService snap * (yr_months : ℚ)
  ((if yr < year then (⟨yr, 12, 31⟩ : Date) else today),
    yr_collected - yr_opex - yr_debt)

/-- The IRR block of `_property_metrics`: build the dated cash-flow series
(synthetic acquisition outflow, recorded capital events, yearly operating
flows, terminal equity) and solve. -/
def irrValueOf (pw : ℚ → ℚ → ℚ) (today : Date) (snap : Snapshot)
    (year : Int) : Option ℚ :=
  let capital_events := sortedCapitalEvents snap
  let teq := totalEquityInvested snap
  if capital_events ≠ [] ∨ (teq ≠ 0 ∧ resolvedPurchaseDate snap ≠ none) then
    let has_acquisition :=
      capital_events.any (fun e => e.event_type = "acquisition")
    let cf0 : List (Date × ℚ) :=
      match resolvedPurchaseDate snap with
      | some pd =>
        if ¬has_acquisition ∧ 0 < teq then [(pd, -teq)] else []
      | none => []
    let cf1 := cf0 ++ capital_events.map (fun e => (e.event_date, e.amount))
    match cf1 with
    | [] => irrSolve pw []
    | (d0, a0) :: rest =>
      let yearsCount := (year + 1 - d0.year).toNat
      let yearFlows := (List.range yearsCount).map
        (fun i => irrYearFlow today snap year (d0.year + (i : Int)))
      let cf2 := ((d0, a0) :: rest) ++ yearFlows
      let cf3 := cf2 ++
        (if 0 < currentEquity snap then [(today, currentEquity snap)] else [])
      irrSolve pw cf3
  else none

/-- The `"annual"` block computation. -/
def annualBucketOf (pw : ℚ → ℚ → ℚ) (today : Date) (snap : Snapshot)
    (year month : Int) : AnnualBucket :=
  let y_start := (yearRangeB snap year).1
  let y_end := (yearRangeB snap year).2
  let monthly_fixed_costs := property_costs_monthly_equiv (activeCosts snap)
  let y_charged := rent_roll snap y_start y_end
  let y_collected := rent_collected snap y_start y_end
  let y_opex_maint := maintenance_opex snap y_start y_end
  let y_capex := maintenance_capex snap y_start y_end
  let y_months := guardedMonths y_start y_end
  let y_fixed := monthly_fixed_costs * (y_months : ℚ)
  let y_opex := y_opex_maint + y_fixed
  let y_debt := monthlyDebtService snap * (y_months : ℚ)
  let y_noi := y_collected - y_opex
  let y_cash_flow := y_noi - y_debt
  let py_noi := priorYearNoi snap year
  let noi_yoy_pct :=
    if py_noi ≠ 0 then some ((y_noi - py_noi) / |py_noi| * 100) else none
  let cv := currentValue snap
  let cap_rate := if 0 < cv then some (y_noi / cv * 100) else none
  { rent_charged := y_charged, rent_collected := y_collected,
    opex := y_opex, capex := y_capex, noi := y_noi, debt_service := y_debt,
    cash_flow := y_cash_flow, cap_rate := cap_rate,
    irr := irrValueOf pw today snap year, noi_prior_year := py_noi,
    noi_yoy_pct := noi_yoy_pct,
    total_equity_invested := totalEquityInvested snap,
    current_equity := currentEquity snap }

/-- Start of the lifetime range: `purchase_date`, else the resolved
acquisition date, else the earliest rent charge, else Jan 1 of the year. -/
def lifetimeStart (snap : Snapshot) (year : Int) : Date :=
  match snap.prop.purchase_date with
  | some d => d
  | none =>
    match resolvedPurchaseDate snap with
    | some d => d
    | none => (earliestChargeDate snap).getD ⟨year, 1, 1⟩

/-- The `"lifetime"` block computation (built when `period == "ltd"`). -/
def lifetimeBucketOf (pw : ℚ → ℚ → ℚ) (today : Date) (snap : Snapshot)
    (year month : Int) : LifetimeBucket :=
  let lt_start := lifetimeStart snap year
  let lt_end := today
  let monthly_fixed_costs := property_costs_monthly_equiv (activeCosts snap)
  let lt_months := max 1 (monthsInRange lt_start lt_end)
  let lt_charged := rent_roll snap lt_start lt_end
  let lt_collected := rent_collected snap lt_start lt_end
  let lt_opex_m := maintenance_opex snap lt_start lt_end
  let lt_capex := maintenance_capex snap lt_start lt_end
  let lt_fixed := monthly_fixed_costs * (lt_months : ℚ)
  let lt_opex := lt_opex_m + lt_fixed
  let lt_debt := monthlyDebtService snap * (lt_months : ℚ)
  let lt_noi := lt_collected - lt_opex
  let lt_cash_flow := lt_noi - lt_debt
  let y_noi := annualNoi snap year
  let cv := currentValue snap
  { start_date := lt_start, months := lt_months, rent_charged := lt_charged,
    rent_collected := lt_collected,
    delinquency := lt_charged - lt_collected, opex := lt_opex,
    capex := lt_capex, noi := lt_noi, debt_service := lt_debt,
    cash_flow := lt_cash_flow,
    avg_monthly_noi := lt_noi / (lt_months : ℚ),
    avg_monthly_cash_flow := lt_cash_flow / (lt_months : ℚ),
    cap_rate := if 0 < cv then some (y_noi / cv * 100) else none,
    irr := irrValueOf pw today snap year,
    current_equity := currentEquity snap,
    total_equity_invested := totalEquityInvested snap }

/-- `_property_metrics`: the full per-property report. -/
def property_metrics (pw : ℚ → ℚ → ℚ) (today : Date) (snap : Snapshot)
    (year month : Int) (include_lifetime : Bool) : Report :=
  { property_address := snap.prop.address, year := year, month := month,
    monthly := monthlyBucketOf snap year month,
    ytd := ytdBucketOf snap year month,
    quarterly := quarterlyBucketOf snap year month,
    annual := annualBucketOf pw today snap year month,
    lifetime :=
      if include_lifetime then some (lifetimeBucketOf pw today snap year month)
      else none }

-- ─── Portfolio aggregator (§4.5), `portfolio_report` ───

/-- `portfolio_total["monthly"]` (all values summed as numbers by `agg`). -/
structure PortfolioMonthlyTotal where
  rent_charged   : ℚ
  rent_collected : ℚ
  delinquency    : ℚ
  opex           : ℚ
  capex          : ℚ
  noi            : ℚ
  debt_service   : ℚ
  cash_flow      : ℚ
  rentable_units : ℚ
  occupied_units : ℚ
deriving DecidableEq, Repr

/-- `portfolio_total["ytd"]`. -/
structure PortfolioYtdTotal where
  months         : Int
  rent_charged   : ℚ
  rent_collected : ℚ
  delinquency    : ℚ
  opex           : ℚ
  capex          : ℚ
  noi            : ℚ
  debt_service   : ℚ
  cash_flow      : ℚ
  rentable_units : ℚ
  occupied_units : ℚ
deriving DecidableEq, Repr

/-- `portfolio_total["annual"]`. -/
structure PortfolioAnnualTotal where
  rent_charged   : ℚ
  rent_collected : ℚ
  opex           : ℚ
  noi            : ℚ
  debt_service   : ℚ
  cash_flow      : ℚ
  total_equity_invested : ℚ
  current_equity : ℚ
deriving DecidableEq, Repr

/-- The `portfolio_total` block. -/
structure PortfolioTotal where
  monthly : PortfolioMonthlyTotal
  ytd     : PortfolioYtdTotal
  annual  : PortfolioAnnualTotal
deriving DecidableEq, Repr

/-- Result of `portfolio_report`. -/
structure PortfolioReport where
  year       : Int
  month      : Int
  properties : List Report
  portfolio_total : PortfolioTotal
deriving DecidableEq, Repr

/-- `agg` specialised to one numeric field over the successful reports. -/
def aggF (reports : List Report) (f : Report → ℚ) : ℚ :=
  (reports.map f).sum

/-- `portfolio_report`: one report per property, with the per-property
metric computation modelled as `metricsOf : α → Except ε Report` — the
source wraps `_property_metrics` in `try/except`, logs a failure, and
drops the failed property (`Report`s of failures never reach `reports`);
totals are field-wise sums over the successful reports. -/
def portfolio_report {α ε : Type} (metricsOf : α → Except ε Report)
    (props : List α) (year month : Int) : PortfolioReport :=
  let reports := props.filterMap (fun p => (metricsOf p).toOption)
  { year := year, month := month, properties := reports,
    portfolio_total :=
    { monthly :=
      { rent_charged := aggF reports (fun r => r.monthly.rent_charged)
        rent_collected := aggF reports (fun r => r.monthly.rent_collected)
        delinquency := aggF reports (fun r => r.monthly.delinquency)
        opex := aggF reports (fun r => r.monthly.opex)
        capex := aggF reports (fun r => r.monthly.capex)
        noi := aggF reports (fun r => r.monthly.noi)
        debt_service := aggF reports (fun r => r.monthly.debt_service)
        cash_flow := aggF reports (fun r => r.monthly.cash_flow)
        rentable_units := aggF reports (fun r => (r.monthly.rentable_units : ℚ))
        occupied_units := aggF reports (fun r => (r.monthly.occupied_units : ℚ)) }
      ytd :=
      { months := month
        rent_charged := aggF reports (fun r => r.ytd.rent_charged)
        rent_collected := aggF reports (fun r => r.ytd.rent_collected)
        delinquency := aggF reports (fun r => r.ytd.delinquency)
        opex := aggF reports (fun r => r.ytd.opex)
        capex := aggF reports (fun r => r.ytd.capex)
        noi := aggF reports (fun r => r.ytd.noi)
        debt_service := aggF reports (fun r => r.ytd.debt_service)
        cash_flow := aggF reports (fun r => r.ytd.cash_flow)
        rentable_units := aggF reports (fun r => (r.monthly.rentable_units : ℚ))
        occupied_units := aggF reports (fun r => (r.monthly.occupied_units : ℚ)) }
      annual :=
      { rent_charged := aggF reports (fun r => r.annual.rent_charged)
        rent_collected := aggF reports (fun r => r.annual.rent_collected)
        opex := aggF reports (fun r => r.annual.opex)
        noi := aggF reports (fun r => r.annual.noi)
        debt_service := aggF reports (fun r => r.annual.debt_service)
        cash_flow := aggF reports (fun r => r.annual.cash_flow)
        total_equity_invested :=
          aggF reports (fun r => r.annual.total_equity_invested)
        current_equity := aggF reports (fun r => r.annual.current_equity) } } }

-- ─── Tax export (§4.6), `tax_export` ───

/-- One CSV row of the tax export. Numeric cells are exact rationals
(`f"{x:.2f}"` formatting omitted); the Loan Balance cell is `Option` so
the empty cell of the total row is `none`. -/
structure TaxRow where
  address      : String
  gross_rents  : ℚ
  mgmt_fees    : ℚ
  insurance    : ℚ
  property_tax : ℚ
  hoa          : ℚ
  repairs      : ℚ
  other_fixed  : ℚ
  total_opex   : ℚ
  noi          : ℚ
  capex        : ℚ
  loan_balance : Option ℚ
  notes        : String
deriving DecidableEq, Repr

/-- `annual_amount`: annualised cost (monthly ×12, quarterly ×4, annual ×1;
the `else` branch — `one_time` — returns the full amount). -/
def annual_amount (cost : PropertyCostRow) : ℚ :=
  if cost.frequency = "monthly" then cost.amount * 12
  else if cost.frequency = "quarterly" then cost.amount * 4
  else if cost.frequency = "annual" then cost.amount
  else cost.amount

/-- Lease ids over all units of the property (the tax export does not
restrict to rentable units). -/
def taxLeaseIds (snap : Snapshot) : List Nat :=
  ((snap.leases.filter (fun l =>
    l.unit_id ∈ snap.units.map (fun u => u.id))).map (fun l => l.id))

/-- Gross rents received in the tax year (actual payments). -/
def taxGrossRents (snap : Snapshot) (year : Int) : ℚ :=
  if taxLeaseIds snap = [] then 0
  else ((snap.payments.filter (fun p =>
    p.lease_id ∈ taxLeaseIds snap ∧
    Date.le ⟨year, 1, 1⟩ p.payment_date ∧
    Date.le p.payment_date ⟨year, 12, 31⟩)).map (fun p => p.amount)).sum

/-- Rent charged in the tax year (for the management-fee calculation). -/
def taxRentCharged (snap : Snapshot) (year : Int) : ℚ :=
  if taxLeaseIds snap = [] then 0
  else ((snap.rent_charges.filter (fun c =>
    c.lease_id ∈ taxLeaseIds snap ∧
    Date.le ⟨year, 1, 1⟩ c.charge_date ∧
    Date.le c.charge_date ⟨year, 12, 31⟩)).map (fun c => c.amount)).sum

/-- Annualised active costs in one category. -/
def categoryAnnual (snap : Snapshot) (cat : String) : ℚ :=
  (((activeCosts snap).filter (fun c => c.category = cat)).map
    annual_amount).sum

/-- Annualised active costs outside insurance/property_tax/hoa
(the "Other Fixed Costs" column). -/
def otherFixedAnnual (snap : Snapshot) : ℚ :=
  (((activeCosts snap).filter (fun c =>
    c.category ≠ "insurance" ∧ c.category ≠ "property_tax" ∧
    c.category ≠ "hoa")).map annual_amount).sum

/-- Non-capex maintenance in the tax year. -/
def taxRepairs (snap : Snapshot) (year : Int) : ℚ :=
  maintenance_opex snap ⟨year, 1, 1⟩ ⟨year, 12, 31⟩

/-- Capex maintenance in the tax year. -/
def taxCapex (snap : Snapshot) (year : Int) : ℚ :=
  maintenance_capex snap ⟨year, 1, 1⟩ ⟨year, 12, 31⟩

/-- Management fees on billed rent (only when managed and the fee
percentage is truthy). -/
def taxMgmtFees (snap : Snapshot) (year : Int) : ℚ :=
  if snap.prop.is_property_managed ∧ snap.prop.management_fee_pct.getD 0 ≠ 0
  then taxRentCharged snap year * snap.prop.management_fee_pct.getD 0 / 100
  else 0

/-- The tax-export row of one property. -/
def taxRowFor (year : Int) (snap : Snapshot) : TaxRow :=
  let insurance_annual := categoryAnnual snap "insurance"
  let property_tax_annual := categoryAnnual snap "property_tax"
  let hoa_annual := categoryAnnual snap "hoa"
  let other_fixed_annual := otherFixedAnnual snap
  let repairs_annual := taxRepairs snap year
  let mgmt_fees := taxMgmtFees snap year
  let total_opex := mgmt_fees + insurance_annual + property_tax_annual +
    hoa_annual + repairs_annual + other_fixed_annual
  { address := snap.prop.address,
    gross_rents := taxGrossRents snap year,
    mgmt_fees := mgmt_fees,
    insurance := insurance_annual,
    property_tax := property_tax_annual,
    hoa := hoa_annual,
    repairs := repairs_annual,
    other_fixed := other_fixed_annual,
    total_opex := total_opex,
    noi := taxGrossRents snap year - total_opex,
    capex := taxCapex snap year,
    loan_balance := some (totalCurrentBalance snap),
    notes := "See loan statements for mortgage interest breakdown" }

/-- The final `PORTFOLIO TOTAL` row: the accumulated sums of the ten
accumulated numeric columns; the Loan Balance and Notes cells are written
empty. -/
def taxTotalRow (year : Int) (snaps : List Snapshot) : TaxRow :=
  let rows := snaps.map (taxRowFor year)
  { address := "PORTFOLIO TOTAL",
    gross_rents := (rows.map (fun r => r.gross_rents)).sum,
    mgmt_fees := (rows.map (fun r => r.mgmt_fees)).sum,
    insurance := (rows.map (fun r => r.insurance)).sum,
    property_tax := (rows.map (fun r => r.property_tax)).sum,
    hoa := (rows.map (fun r => r.hoa)).sum,
    repairs := (rows.map (fun r => r.repairs)).sum,
    other_fixed := (rows.map (fun r => r.other_fixed)).sum,
    total_opex := (rows.map (fun r => r.total_opex)).sum,
    noi := (rows.map (fun r => r.noi)).sum,
    capex := (rows.map (fun r => r.capex)).sum,
    loan_balance := none,
    notes := "" }

/-- `tax_export`: `None` models the 404 on an empty household; otherwise
one row per property followed by the portfolio-total row (the fixed header
and the disclaimer block are constant text, not modelled). -/
def tax_export (year : Int) (snaps : List Snapshot) : Option (List TaxRow) :=
  if snaps = [] then none
  else some (snaps.map (taxRowFor year) ++ [taxTotalRow year snaps])

-- ─── Spec-side definition for the rent-roll refinement check ───

/-- Modelled from the spec wording, for comparison with `rent_roll`: the
fallback sums `monthly_rent` over leases **active at the range end**
(status active, started by the range end, and not ended before it),
multiplied by the inclusive month count. -/
def rentRollSpecActiveAtEnd (snap : Snapshot) (dStart dEnd : Date) : ℚ :=
  let actual := rent_charged snap dStart dEnd
  if 0 < actual then actual
  else ((snap.leases.filter (fun l =>
    l.unit_id ∈ rentableUnitIds snap ∧
    Date.le l.lease_start dEnd ∧
    l.lease_end.all (fun le₀ => Date.le dEnd le₀) ∧
    l.status = "active")).map (fun l => l.monthly_rent)).sum *
      (monthsInRange dStart dEnd : ℚ)

-- ─── Concrete fixtures for witnesses and counterexamples ───

/-- A concrete stand-in for the float power `**` (the claims proved about
the IRR solver hold for every power function). -/
def pwTrivial : ℚ → ℚ → ℚ := fun b _ => b

/-- A property row with every optional column unset. -/
def bareProp : PropertyRow :=
  { purchase_date := none, purchase_price := none, closing_costs := none,
    current_value := none, is_property_managed := false,
    management_fee_pct := none, address := "1 Main St" }

/-- A snapshot with no rows at all. -/
def snapEmpty : Snapshot :=
  { prop := bareProp, units := [], leases := [], rent_charges := [],
    payments := [], loans := [], costs := [], maintenance := [],
    capital_events := [] }

/-- One rentable unit with a status-active lease that ends mid-March
(2025-03-10) and no charge rows: the source counts it in the March
rent-roll fallback, the spec reading (active at the range end) does not. -/
def snapLeaseEndsMidMarch : Snapshot :=
  { prop := bareProp,
    units := [⟨1, true⟩],
    leases := [⟨1, 1, ⟨2025, 1, 1⟩, some ⟨2025, 3, 10⟩, 2000, "active", none⟩],
    rent_charges := [], payments := [], loans := [], costs := [],
    maintenance := [], capital_events := [] }

/-- A $2,000 lease active all of March 2025 plus charge rows summing to
$1,800 dated in March. -/
def snapChargedMarch : Snapshot :=
  { prop := bareProp,
    units := [⟨1, true⟩],
    leases := [⟨1, 1, ⟨2025, 1, 1⟩, none, 2000, "active", none⟩],
    rent_charges := [⟨1, ⟨2025, 3, 1⟩, 900⟩, ⟨1, ⟨2025, 3, 15⟩, 900⟩],
    payments := [], loans := [], costs := [], maintenance := [],
    capital_events := [] }

/-- A $2,000 lease active all of March 2025 and zero charge rows. -/
def snapLeaseOnlyMarch : Snapshot :=
  { prop := bareProp,
    units := [⟨1, true⟩],
    leases := [⟨1, 1, ⟨2025, 1, 1⟩, none, 2000, "active", none⟩],
    rent_charges := [], payments := [], loans := [], costs := [],
    maintenance := [], capital_events := [] }

/-- Property purchased 2025-06-15 carrying a $1,000/month loan and a
$300/month active fixed cost; no other rows. -/
def snapPurchasedJune : Snapshot :=
  { prop := { bareProp with purchase_date := some ⟨2025, 6, 15⟩ },
    units := [], leases := [], rent_charges := [], payments := [],
    loans := [{ monthly_payment := some 1000, original_amount := some 0,
                current_balance := some 0 }],
    costs := [{ category := "hoa", amount := 300, frequency := "monthly",
                is_active := true }],
    maintenance := [], capital_events := [] }

/-- A $2,000 lease active all of March 2025, no charge rows, and a single
$500 payment dated 2025-03-10. -/
def snapPaymentNoCharges : Snapshot :=
  { prop := bareProp,
    units := [⟨1, true⟩],
    leases := [⟨1, 1, ⟨2025, 3, 1⟩, none, 2000, "active", none⟩],
    rent_charges := [],
    payments := [⟨1, ⟨2025, 3, 10⟩, 500⟩],
    loans := [], costs := [], maintenance := [], capital_events := [] }

/-- One property with a loan balance of $1,000 and nothing else. -/
def snapLoanBalance : Snapshot :=
  { prop := bareProp,
    units := [], leases := [], rent_charges := [], payments := [],
    loans := [{ monthly_payment := none, original_amount := none,
                current_balance := some 1000 }],
    costs := [], maintenance := [], capital_events := [] }

/-- An active one-time $500 cost outside the three named categories. -/
def oneTimeCost : PropertyCostRow :=
  { category := "other", amount := 500, frequency := "one_time",
    is_active := true }

-- ─── Theorems ───

/-- **C1** (confirmed): in every period bucket of the property report —
monthly, quarterly, YTD, annual, and lifetime when requested — the
reported NOI equals the rent collected for that range minus the opex for
that range, and the reported cash flow equals that NOI minus the debt
service for that range. -/
theorem C1_report_noi_and_cash_flow_identities
    (pw : ℚ → ℚ → ℚ) (today : Date) (snap : Snapshot) (year month : Int) :
    let rep := property_metrics pw today snap year month true
    (rep.monthly.noi = rep.monthly.rent_collected - rep.monthly.opex ∧
      rep.monthly.cash_flow = rep.monthly.noi - rep.monthly.debt_service) ∧
    (rep.quarterly.noi = rep.quarterly.rent_collected - rep.quarterly.opex ∧
      rep.quarterly.cash_flow = rep.quarterly.noi - rep.quarterly.debt_service) ∧
    (rep.ytd.noi = rep.ytd.rent_collected - rep.ytd.opex ∧
      rep.ytd.cash_flow = rep.ytd.noi - rep.ytd.debt_service) ∧
    (rep.annual.noi = rep.annual.rent_collected - rep.annual.opex ∧
      rep.annual.cash_flow = rep.annual.noi - rep.annual.debt_service) ∧
    (rep.lifetime.map (fun lt => lt.noi) =
        rep.lifetime.map (fun lt => lt.rent_collected - lt.opex) ∧
      rep.lifetime.map (fun lt => lt.cash_flow) =
        rep.lifetime.map (fun lt => lt.noi - lt.debt_service)) :=
  ⟨⟨rfl, rfl⟩, ⟨rfl, rfl⟩, ⟨rfl, rfl⟩, ⟨rfl, rfl⟩, rfl, rfl⟩

/-- `activeOverlapRent` vanishes when the property has no rentable units. -/
theorem activeOverlapRent_of_no_units (snap : Snapshot) (dStart dEnd : Date)
    (hu : rentableUnitIds snap = []) :
    activeOverlapRent snap dStart dEnd = 0 := by
  simp [activeOverlapRent, hu]

/-- **C2** (corrected): `rent_roll` returns the formal charges when they
are positive; otherwise it returns `monthly_rent` summed over the
status-active leases that **overlap** the range (`lease_start ≤ end` and
`lease_end` unset or `≥ start`) — not merely those active at the range
end — times the inclusive month count. In particular, charges summing to
$1,800 in March 2025 beat a $2,000 active lease, and a $2,000 lease
active all of March with zero charge rows yields 2000. -/
theorem C2_rent_roll_amended (snap : Snapshot) (dStart dEnd : Date) :
    (0 < rent_charged snap dStart dEnd →
      rent_roll snap dStart dEnd = rent_charged snap dStart dEnd) ∧
    (¬ 0 < rent_charged snap dStart dEnd →
      rent_roll snap dStart dEnd =
        activeOverlapRent snap dStart dEnd *
          (monthsInRange dStart dEnd : ℚ)) ∧
    rent_roll snapChargedMarch ⟨2025, 3, 1⟩ ⟨2025, 3, 31⟩ = 1800 ∧
    rent_roll snapLeaseOnlyMarch ⟨2025, 3, 1⟩ ⟨2025, 3, 31⟩ = 2000 := by
  refine ⟨?_, ?_, ?_, ?_⟩
  · intro h
    simp only [rent_roll, if_pos h]
  · intro h
    simp only [rent_roll, if_neg h]
    by_cases hu : rentableUnitIds snap = []
    · rw [if_pos hu, activeOverlapRent_of_no_units snap dStart dEnd hu,
        zero_mul]
    · rw [if_neg hu]
  · norm_num [rent_roll, rent_charged, leaseIdsOf, rentableUnitIds,
      Date.le, snapChargedMarch, List.filter, List.sum]
  · norm_num [rent_roll, rent_charged, activeOverlapRent, leaseIdsOf,
      rentableUnitIds, monthsInRange, Date.le, snapLeaseOnlyMarch,
      List.filter, List.sum]

/-- **C2** counterexample: the lease of `snapLeaseEndsMidMarch` has
status "active", `lease_end = 2025-03-10`; the overlap test of the code
(`lease_end ≥ range start`, i.e. `2025-03-01 ≤ 2025-03-10`) passes while
the active-at-range-end reading (`range end ≤ lease_end`, i.e.
`2025-03-31 ≤ 2025-03-10`) fails — so the code counts it and `rent_roll`
for March 2025 yields 2000 while the claim as stated predicts 0. -/
theorem C2_counterexample :
    Date.le ⟨2025, 3, 1⟩ ⟨2025, 3, 10⟩ = true ∧
    Date.le ⟨2025, 3, 31⟩ ⟨2025, 3, 10⟩ = false ∧
    activeOverlapRent snapLeaseEndsMidMarch ⟨2025, 3, 1⟩ ⟨2025, 3, 31⟩ =
      2000 ∧
    rent_roll snapLeaseEndsMidMarch ⟨2025, 3, 1⟩ ⟨2025, 3, 31⟩ = 2000 ∧
    rentRollSpecActiveAtEnd snapLeaseEndsMidMarch
      ⟨2025, 3, 1⟩ ⟨2025, 3, 31⟩ = 0 ∧
    (2000 : ℚ) ≠ 0 := by
  refine ⟨by decide, by decide, ?_, ?_, ?_, by norm_num⟩
  · norm_num [activeOverlapRent, rentableUnitIds, Date.le,
      snapLeaseEndsMidMarch, List.filter, List.sum]
  · norm_num [rent_roll, rent_charged, activeOverlapRent, leaseIdsOf,
      rentableUnitIds, monthsInRange, Date.le, snapLeaseEndsMidMarch,
      List.filter, List.sum]
  · norm_num [rentRollSpecActiveAtEnd, rent_charged, leaseIdsOf,
      rentableUnitIds, monthsInRange, Date.le, snapLeaseEndsMidMarch,
      List.filter, List.sum]

/-- **C2** witness: charges summing to $1,800 in March 2025 beat the
$2,000 active lease, and the same lease with zero charge rows yields
2000. -/
theorem C2_rent_roll_amended_witness :
    (0 < rent_charged snapChargedMarch ⟨2025, 3, 1⟩ ⟨2025, 3, 31⟩ ∧
      rent_roll snapChargedMarch ⟨2025, 3, 1⟩ ⟨2025, 3, 31⟩ =
        rent_charged snapChargedMarch ⟨2025, 3, 1⟩ ⟨2025, 3, 31⟩ ∧
      rent_charged snapChargedMarch ⟨2025, 3, 1⟩ ⟨2025, 3, 31⟩ = 1800) ∧
    (¬ 0 < rent_charged snapLeaseOnlyMarch ⟨2025, 3, 1⟩ ⟨2025, 3, 31⟩ ∧
      rent_roll snapLeaseOnlyMarch ⟨2025, 3, 1⟩ ⟨2025, 3, 31⟩ = 2000) := by
  have h1 : rent_charged snapChargedMarch ⟨2025, 3, 1⟩ ⟨2025, 3, 31⟩ = 1800 := by
    norm_num [rent_charged, leaseIdsOf, rentableUnitIds, Date.le,
      snapChargedMarch, List.filter, List.sum]
  have h0 : (0 : ℚ) < rent_charged snapChargedMarch ⟨2025, 3, 1⟩ ⟨2025, 3, 31⟩ := by
    rw [h1]; norm_num
  have h3 : ¬ (0 : ℚ) < rent_charged snapLeaseOnlyMarch ⟨2025, 3, 1⟩ ⟨2025, 3, 31⟩ := by
    norm_num [rent_charged, leaseIdsOf, rentableUnitIds, Date.le,
      snapLeaseOnlyMarch, List.filter, List.sum]
  refine ⟨⟨h0, (C2_rent_roll_amended snapChargedMarch _ _).1 h0, h1⟩,
    h3, ((C2_rent_roll_amended snapLeaseOnlyMarch _ _).2.1 h3).trans ?_⟩
  norm_num [activeOverlapRent, rentableUnitIds, monthsInRange, Date.le,
    snapLeaseOnlyMarch, List.filter, List.sum]

/-- **C8** (confirmed): degenerate inputs resolve to sentinels and never
raise — `cap_rate` is `None` iff `current_value ≤ 0`, `cash_on_cash_ytd`
is `None` iff `total_equity_invested ≤ 0`, `noi_yoy_pct` is `None` iff
the prior-year NOI is 0, and `occupancy_pct` is 0 when the property has
no rentable units. -/
theorem C8_degenerate_inputs_resolve_to_sentinels
    (pw : ℚ → ℚ → ℚ) (today : Date) (snap : Snapshot) (year month : Int)
    (inc : Bool) :
    let rep := property_metrics pw today snap year month inc
    (rep.annual.cap_rate = none ↔ currentValue snap ≤ 0) ∧
    (rep.quarterly.cash_on_cash_ytd = none ↔ totalEquityInvested snap ≤ 0) ∧
    (rep.annual.noi_yoy_pct = none ↔ rep.annual.noi_prior_year = 0) ∧
    ((snap.units.filter (fun u => u.is_rentable)).length = 0 →
      rep.monthly.occupancy_pct = 0) := by
  refine ⟨?_, ?_, ?_, ?_⟩
  · show (annualBucketOf pw today snap year month).cap_rate = none ↔ _
    simp only [annualBucketOf]
    by_cases h : 0 < currentValue snap
    · exact iff_of_false (by simp [h]) (not_le.mpr h)
    · exact iff_of_true (by simp [h]) (not_lt.mp h)
  · show (quarterlyBucketOf snap year month).cash_on_cash_ytd = none ↔ _
    simp only [quarterlyBucketOf, cashOnCashYtd]
    by_cases h : 0 < totalEquityInvested snap
    · exact iff_of_false (by simp [h]) (not_le.mpr h)
    · exact iff_of_true (by simp [h]) (not_lt.mp h)
  · show (annualBucketOf pw today snap year month).noi_yoy_pct = none ↔
      (annualBucketOf pw today snap year month).noi_prior_year = 0
    simp only [annualBucketOf]
    by_cases h : priorYearNoi snap year = 0
    · exact iff_of_true (by simp [h]) h
    · exact iff_of_false (by simp [h]) h
  · intro h
    show (monthlyBucketOf snap year month).occupancy_pct = 0
    simp only [monthlyBucketOf]
    simp [h]

/-- **C8** witness: on an empty snapshot all four sentinels fire. -/
theorem C8_degenerate_inputs_witness :
    (property_metrics pwTrivial ⟨2025, 1, 31⟩ snapEmpty 2025 1
      false).annual.cap_rate = none ∧
    (property_metrics pwTrivial ⟨2025, 1, 31⟩ snapEmpty 2025 1
      false).monthly.occupancy_pct = 0 := by
  have h := C8_degenerate_inputs_resolve_to_sentinels pwTrivial
    ⟨2025, 1, 31⟩ snapEmpty 2025 1 false
  refine ⟨h.1.mpr ?_, h.2.2.2 ?_⟩
  · norm_num [currentValue, snapEmpty, bareProp]
  · simp [snapEmpty]

/-- No charge row dated on or before `e` ⇒ `rent_charged` is 0. -/
theorem rent_charged_zero_of_late (snap : Snapshot) (s e : Date)
    (h : ∀ c ∈ snap.rent_charges, Date.le c.charge_date e = false) :
    rent_charged snap s e = 0 := by
  simp only [rent_charged]
  split
  · rfl
  · rw [List.filter_eq_nil_iff.mpr ?_, List.map_nil, List.sum_nil]
    intro c hc
    simp [h c hc]

/-- No payment dated on or before `e` ⇒ `rent_collected` is 0. -/
theorem rent_collected_zero_of_late (snap : Snapshot) (s e : Date)
    (h : ∀ p ∈ snap.payments, Date.le p.payment_date e = false) :
    rent_collected snap s e = 0 := by
  simp only [rent_collected]
  split
  · rfl
  · rw [List.filter_eq_nil_iff.mpr ?_, List.map_nil, List.sum_nil]
    intro p hp
    simp [h p hp]

/-- No maintenance row dated on or before `e` ⇒ `maintenance_opex` is 0. -/
theorem maintenance_opex_zero_of_late (snap : Snapshot) (s e : Date)
    (h : ∀ m ∈ snap.maintenance, Date.le m.expense_date e = false) :
    maintenance_opex snap s e = 0 := by
  simp only [maintenance_opex]
  rw [List.filter_eq_nil_iff.mpr ?_, List.map_nil, List.sum_nil]
  intro m hm
  simp [h m hm]

/-- No maintenance row dated on or before `e` ⇒ `maintenance_capex` is 0. -/
theorem maintenance_capex_zero_of_late (snap : Snapshot) (s e : Date)
    (h : ∀ m ∈ snap.maintenance, Date.le m.expense_date e = false) :
    maintenance_capex snap s e = 0 := by
  simp only [maintenance_capex]
  rw [List.filter_eq_nil_iff.mpr ?_, List.map_nil, List.sum_nil]
  intro m hm
  simp [h m hm]

/-- No lease starting on or before `e` ⇒ the overlap fallback is 0. -/
theorem activeOverlapRent_zero_of_late (snap : Snapshot) (s e : Date)
    (h : ∀ l ∈ snap.leases, Date.le l.lease_start e = false) :
    activeOverlapRent snap s e = 0 := by
  simp only [activeOverlapRent]
  rw [List.filter_eq_nil_iff.mpr ?_, List.map_nil, List.sum_nil]
  intro l hl
  simp [h l hl]

/-- No charge dated on or before `e` and no lease starting on or before
`e` ⇒ `rent_roll` is 0. -/
theorem rent_roll_zero_of_late (snap : Snapshot) (s e : Date)
    (hch : ∀ c ∈ snap.rent_charges, Date.le c.charge_date e = false)
    (hl : ∀ l ∈ snap.leases, Date.le l.lease_start e = false) :
    rent_roll snap s e = 0 := by
  simp only [rent_roll, rent_charged_zero_of_late snap s e hch,
    activeOverlapRent_zero_of_late snap s e hl, lt_self_iff_false,
    if_false, zero_mul]
  split <;> rfl

/-- **C3** (corrected): when the purchase date lies strictly after the
requested month end, the resolver collapses the month range to
`(end, end)`, and the range-restricted metrics — rent charged, rent
collected, capex — are 0 (for data whose rows all postdate the collapsed
end, as any rows of a property bought later do); however the monthly
`opex` still carries the flat fixed-cost monthly equivalent, the monthly
`debt_service` is the flat loan payment sum unaffected by the collapse,
and `noi`/`cash_flow` are the corresponding negatives — they are **not**
all 0. -/
theorem C3_collapsed_range_amended
    (pw : ℚ → ℚ → ℚ) (today : Date) (snap : Snapshot) (year month : Int)
    (inc : Bool) (pd : Date)
    (hpd : snap.prop.purchase_date = some pd)
    (hlt : Date.lt (parse_month year month).2 pd = true)
    (hch : ∀ c ∈ snap.rent_charges,
      Date.le c.charge_date (parse_month year month).2 = false)
    (hpay : ∀ p ∈ snap.payments,
      Date.le p.payment_date (parse_month year month).2 = false)
    (hmx : ∀ m ∈ snap.maintenance,
      Date.le m.expense_date (parse_month year month).2 = false)
    (hl : ∀ l ∈ snap.leases,
      Date.le l.lease_start (parse_month year month).2 = false) :
    let e := (parse_month year month).2
    let rep := property_metrics pw today snap year month inc
    monthRangeB snap year month = (e, e) ∧
    rep.monthly.rent_charged = 0 ∧
    rep.monthly.rent_collected = 0 ∧
    rep.monthly.capex = 0 ∧
    rep.monthly.opex = property_costs_monthly_equiv (activeCosts snap) ∧
    rep.monthly.debt_service = monthlyDebtService snap ∧
    rep.monthly.noi = -property_costs_monthly_equiv (activeCosts snap) ∧
    rep.monthly.cash_flow =
      -property_costs_monthly_equiv (activeCosts snap) -
        monthlyDebtService snap := by
  intro e rep
  have hr : monthRangeB snap year month = (e, e) := by
    simp [monthRangeB, bound_by_purchase, hpd, hlt]
  have hm1 : (monthRangeB snap year month).1 = e := by rw [hr]
  have hm2 : (monthRangeB snap year month).2 = e := by rw [hr]
  have hroll : rent_roll snap e e = 0 := rent_roll_zero_of_late snap e e hch hl
  have hcoll : rent_collected snap e e = 0 :=
    rent_collected_zero_of_late snap e e hpay
  have hmo : maintenance_opex snap e e = 0 :=
    maintenance_opex_zero_of_late snap e e hmx
  have hmc : maintenance_capex snap e e = 0 :=
    maintenance_capex_zero_of_late snap e e hmx
  refine ⟨hr, ?_, ?_, ?_, ?_, rfl, ?_, ?_⟩
  · show rent_roll snap (monthRangeB snap year month).1
      (monthRangeB snap year month).2 = 0
    rw [hm1, hm2]; exact hroll
  · show rent_collected snap (monthRangeB snap year month).1
      (monthRangeB snap year month).2 = 0
    rw [hm1, hm2]; exact hcoll
  · show maintenance_capex snap (monthRangeB snap year month).1
      (monthRangeB snap year month).2 = 0
    rw [hm1, hm2]; exact hmc
  · show maintenance_opex snap (monthRangeB snap year month).1
        (monthRangeB snap year month).2 +
      property_costs_monthly_equiv (activeCosts snap) = _
    rw [hm1, hm2, hmo, zero_add]
  · show rent_collected snap (monthRangeB snap year month).1
        (monthRangeB snap year month).2 -
      (maintenance_opex snap (monthRangeB snap year month).1
        (monthRangeB snap year month).2 +
        property_costs_monthly_equiv (activeCosts snap)) = _
    rw [hm1, hm2, hmo, hcoll]; ring
  · show rent_collected snap (monthRangeB snap year month).1
        (monthRangeB snap year month).2 -
      (maintenance_opex snap (monthRangeB snap year month).1
        (monthRangeB snap year month).2 +
        property_costs_monthly_equiv (activeCosts snap)) -
      monthlyDebtService snap = _
    rw [hm1, hm2, hmo, hcoll]; ring

/-- **C3** counterexample: purchase date 2025-06-15, requested month
2025-03, one $1,000/month loan and one $300/month active cost — the range
collapses, yet the monthly bucket reports `debt_service = 1000` and
`opex = 300`, not 0. -/
theorem C3_counterexample :
    Date.lt (parse_month 2025 3).2 ⟨2025, 6, 15⟩ = true ∧
    monthRangeB snapPurchasedJune 2025 3 =
      (⟨2025, 3, 31⟩, ⟨2025, 3, 31⟩) ∧
    (property_metrics pwTrivial ⟨2025, 3, 31⟩ snapPurchasedJune 2025 3
      false).monthly.debt_service = 1000 ∧
    (property_metrics pwTrivial ⟨2025, 3, 31⟩ snapPurchasedJune 2025 3
      false).monthly.opex = 300 ∧
    (1000 : ℚ) ≠ 0 := by
  refine ⟨by norm_num [parse_month, daysInMonth, isLeap, Date.lt], ?_, ?_, ?_,
    by norm_num⟩
  · norm_num [monthRangeB, bound_by_purchase, parse_month, daysInMonth,
      isLeap, Date.lt, snapPurchasedJune, bareProp]
  · show monthlyDebtService snapPurchasedJune = 1000
    norm_num [monthlyDebtService, snapPurchasedJune]
  · show maintenance_opex snapPurchasedJune
        (monthRangeB snapPurchasedJune 2025 3).1
        (monthRangeB snapPurchasedJune 2025 3).2 +
      property_costs_monthly_equiv (activeCosts snapPurchasedJune) = 300
    norm_num [maintenance_opex, property_costs_monthly_equiv, activeCosts,
      snapPurchasedJune, List.filter, List.sum]

/-- **C3** witness: the amended statement applied to the June-purchase
snapshot for March 2025 (all row-lateness hypotheses hold vacuously). -/
theorem C3_collapsed_range_amended_witness :
    monthRangeB snapPurchasedJune 2025 3 =
      ((parse_month 2025 3).2, (parse_month 2025 3).2) ∧
    (property_metrics pwTrivial ⟨2025, 12, 31⟩ snapPurchasedJune 2025 3
      false).monthly.rent_collected = 0 := by
  have h := C3_collapsed_range_amended pwTrivial ⟨2025, 12, 31⟩
    snapPurchasedJune 2025 3 false ⟨2025, 6, 15⟩ rfl
    (by norm_num [parse_month, daysInMonth, isLeap, Date.lt])
    (by simp [snapPurchasedJune]) (by simp [snapPurchasedJune])
    (by simp [snapPurchasedJune]) (by simp [snapPurchasedJune])
  exact ⟨h.1, h.2.2.1⟩

/-- **C4** (corrected): the delinquency field is `rent_roll − rent_collected`
(the variable fed into it holds the rent-roll value, fallback included),
not `rent_charged − rent_collected`; the two agree exactly when the formal
charges for the range are positive. Holds for the monthly, YTD and
lifetime blocks, the three that report delinquency. -/
theorem C4_delinquency_amended
    (pw : ℚ → ℚ → ℚ) (today : Date) (snap : Snapshot) (year month : Int) :
    let rep := property_metrics pw today snap year month true
    let mS := (monthRangeB snap year month).1
    let mE := (monthRangeB snap year month).2
    let yS := (ytdRangeB snap year month).1
    let yE := (ytdRangeB snap year month).2
    let lS := lifetimeStart snap year
    (rep.monthly.delinquency =
      rent_roll snap mS mE - rent_collected snap mS mE) ∧
    (rep.ytd.delinquency =
      rent_roll snap yS yE - rent_collected snap yS yE) ∧
    (rep.lifetime.map (fun lt => lt.delinquency) =
      some (rent_roll snap lS today - rent_collected snap lS today)) ∧
    (0 < rent_charged snap mS mE →
      rep.monthly.delinquency =
        rent_charged snap mS mE - rent_collected snap mS mE) := by
  refine ⟨rfl, rfl, rfl, ?_⟩
  intro h
  show rent_roll snap (monthRangeB snap year month).1
      (monthRangeB snap year month).2 - _ = _
  rw [show rent_roll snap (monthRangeB snap year month).1
      (monthRangeB snap year month).2 =
    rent_charged snap (monthRangeB snap year month).1
      (monthRangeB snap year month).2 from by
    simp only [rent_roll, if_pos h]]

/-- **C4** counterexample: a $2,000 lease, zero charge rows, one $500
March payment — the report delinquency is `2000 − 500 = 1500`, while
`rent_charged − rent_collected` is `0 − 500 = −500`. -/
theorem C4_counterexample :
    (property_metrics pwTrivial ⟨2025, 12, 31⟩ snapPaymentNoCharges 2025 3
      false).monthly.delinquency = 1500 ∧
    rent_charged snapPaymentNoCharges ⟨2025, 3, 1⟩ ⟨2025, 3, 31⟩ -
      rent_collected snapPaymentNoCharges ⟨2025, 3, 1⟩ ⟨2025, 3, 31⟩ =
      -500 ∧
    (1500 : ℚ) ≠ -500 := by
  refine ⟨?_, ?_, by norm_num⟩
  · show rent_roll snapPaymentNoCharges
        (monthRangeB snapPaymentNoCharges 2025 3).1
        (monthRangeB snapPaymentNoCharges 2025 3).2 -
      rent_collected snapPaymentNoCharges
        (monthRangeB snapPaymentNoCharges 2025 3).1
        (monthRangeB snapPaymentNoCharges 2025 3).2 = 1500
    norm_num [monthRangeB, bound_by_purchase, parse_month, daysInMonth,
      isLeap, rent_roll, rent_charged, rent_collected, activeOverlapRent,
      leaseIdsOf, rentableUnitIds, monthsInRange, Date.le,
      snapPaymentNoCharges, bareProp, List.filter, List.sum]
  · norm_num [rent_charged, rent_collected, leaseIdsOf, rentableUnitIds,
      Date.le, snapPaymentNoCharges, bareProp, List.filter, List.sum]

/-- **C4** witness: with March charges of $1,800 present, the delinquency
field does equal `rent_charged − rent_collected`. -/
theorem C4_delinquency_amended_witness :
    (property_metrics pwTrivial ⟨2025, 12, 31⟩ snapChargedMarch 2025 3
      true).monthly.delinquency =
      rent_charged snapChargedMarch (monthRangeB snapChargedMarch 2025 3).1
        (monthRangeB snapChargedMarch 2025 3).2 -
      rent_collected snapChargedMarch
        (monthRangeB snapChargedMarch 2025 3).1
        (monthRangeB snapChargedMarch 2025 3).2 := by
  refine (C4_delinquency_amended pwTrivial ⟨2025, 12, 31⟩ snapChargedMarch
    2025 3).2.2.2 ?_
  norm_num [monthRangeB, bound_by_purchase, parse_month, daysInMonth,
    isLeap, rent_charged, leaseIdsOf, rentableUnitIds, Date.le,
    snapChargedMarch, bareProp, List.filter, List.sum]

/-- **C5** (confirmed): the IRR solver returns `None` for every series of
fewer than two dated flows, and for every series whose amounts are all
non-negative or all non-positive — for any power function standing in for
the float `**`. -/
theorem C5_irr_sign_and_length_guards
    (pw : ℚ → ℚ → ℚ) (flows : List (Date × ℚ)) :
    (flows.length < 2 → irrSolve pw flows = none) ∧
    (((∀ f ∈ flows, 0 ≤ f.2) ∨ (∀ f ∈ flows, f.2 ≤ 0)) →
      irrSolve pw flows = none) := by
  constructor
  · intro h
    simp only [irrSolve, irrSeries, if_pos h]
  · intro h
    by_cases hlen : flows.length < 2
    · simp only [irrSolve, irrSeries, if_pos hlen]
    · simp only [irrSolve, irrSeries, if_neg hlen]
      cases hs : sortedCashFlows flows with
      | nil => rfl
      | cons hd tl =>
        have hmem : ∀ x ∈ hd :: tl, x ∈ flows := by
          intro x hx
          have : x ∈ sortedCashFlows flows := hs ▸ hx
          exact List.mem_mergeSort.mp this
        have hall :
            (((hd :: tl).map (fun x => x.2)).all (fun a => decide (0 ≤ a)) ||
              ((hd :: tl).map (fun x => x.2)).all
                (fun a => decide (a ≤ 0))) = true := by
          rcases h with hp | hn
          · apply Bool.or_eq_true_iff.mpr; left
            apply List.all_eq_true.mpr
            intro a ha
            rcases List.mem_map.mp ha with ⟨x, hx, rfl⟩
            exact decide_eq_true (hp x (hmem x hx))
          · apply Bool.or_eq_true_iff.mpr; right
            apply List.all_eq_true.mpr
            intro a ha
            rcases List.mem_map.mp ha with ⟨x, hx, rfl⟩
            exact decide_eq_true (hn x (hmem x hx))
        dsimp only
        rw [if_pos hall]

/-- **C5** witness: a singleton series and an all-positive pair both
yield `None`. -/
theorem C5_irr_guards_witness :
    irrSolve pwTrivial [(⟨2025, 1, 1⟩, (-5 : ℚ))] = none ∧
    irrSolve pwTrivial
      [(⟨2025, 1, 1⟩, (5 : ℚ)), (⟨2026, 1, 1⟩, (3 : ℚ))] = none := by
  refine ⟨(C5_irr_sign_and_length_guards pwTrivial _).1 (by norm_num),
    (C5_irr_sign_and_length_guards pwTrivial _).2 (Or.inl ?_)⟩
  intro f hf
  simp only [List.mem_cons, List.mem_singleton] at hf
  rcases hf with rfl | rfl | hf
  · norm_num
  · norm_num
  · simp at hf

/-- Every rate in the Newton evaluation trace stays above −1 when the
starting guess does: an update `≤ −1` is clamped to `−0.999` before the
next evaluation. -/
theorem newtonEvalPoints_mem_gt_negOne (f fp : ℚ → ℚ) :
    ∀ (n : Nat) (r₀ : ℚ), -1 < r₀ →
      ∀ r ∈ newtonEvalPoints f fp n r₀, -1 < r := by
  intro n
  induction n with
  | zero =>
    intro r₀ h r hr
    simp [newtonEvalPoints] at hr
  | succ n ih =>
    intro r₀ h r hr
    simp only [newtonEvalPoints] at hr
    rcases List.mem_cons.mp hr with rfl | hr2
    · exact h
    · by_cases h1 : |fp r₀| < 1/1000000000000
      · rw [if_pos h1] at hr2
        simp at hr2
      · rw [if_neg h1] at hr2
        by_cases h2 : |r₀ - f r₀ / fp r₀ - r₀| < 1/100000000
        · rw [if_pos h2] at hr2
          simp at hr2
        · rw [if_neg h2] at hr2
          refine ih _ ?_ r hr2
          by_cases h3 : r₀ - f r₀ / fp r₀ ≤ -1
          · rw [if_pos h3]; norm_num
          · rw [if_neg h3]; exact not_le.mp h3

/-- **C9** (confirmed): every evaluation of `npv`/`npv_prime` inside the
IRR solver happens at a rate strictly above −1 (initial guess 0.10;
post-update clamp to −0.999), so the discount base `1 + r` is strictly
positive at every power computation — for any power function and any
input series. Totality is by construction: `irrSolve` is a Lean function
returning `Option ℚ` for every finite input list. -/
theorem C9_irr_evaluation_rates_above_negOne
    (pw : ℚ → ℚ → ℚ) (flows : List (Date × ℚ)) (r : ℚ)
    (hr : r ∈ irrEvalRates pw flows) :
    -1 < r ∧ 0 < 1 + r := by
  have hgt : -1 < r := by
    unfold irrEvalRates at hr
    cases hs : irrSeries flows with
    | none => rw [hs] at hr; simp at hr
    | some ser =>
      rw [hs] at hr
      exact newtonEvalPoints_mem_gt_negOne
        (npvFun pw ser) (npvPrimeFun pw ser) 100 (1/10) (by norm_num) r hr
  exact ⟨hgt, by linarith⟩

/-- A two-element mixed-sign series dated on the same day: the derivative
guard fires at once and the only evaluation happens at the 0.10 guess. -/
def flowsSameDay : List (Date × ℚ) :=
  [(⟨2025, 1, 1⟩, -100), (⟨2025, 1, 1⟩, 100)]

/-- **C9** witness: the guess 0.10 is an evaluation rate of the solver on
`flowsSameDay`, and the theorem yields `0 < 1 + 0.10` there. -/
theorem C9_irr_evaluation_rates_witness :
    ((1 : ℚ)/10) ∈ irrEvalRates pwTrivial flowsSameDay ∧
    (0 : ℚ) < 1 + 1/10 := by
  have hmem : ((1 : ℚ)/10) ∈ irrEvalRates pwTrivial flowsSameDay := by
    have hsort : sortedCashFlows flowsSameDay = flowsSameDay := by
      apply List.mergeSort_of_sorted
      norm_num [flowsSameDay, Date.le, List.pairwise_cons]
    have hser : irrSeries flowsSameDay =
        some [((-100 : ℚ), (0 : ℚ)), ((100 : ℚ), (0 : ℚ))] := by
      simp only [irrSeries, hsort]
      norm_num [flowsSameDay, daysBetween, Date.toDayNumber, List.zip]
    simp only [irrEvalRates, hser]
    have hfp : npvPrimeFun pwTrivial
        [((-100 : ℚ), (0 : ℚ)), ((100 : ℚ), (0 : ℚ))] (1/10) = 0 := by
      norm_num [npvPrimeFun, pwTrivial]
    show ((1 : ℚ)/10) ∈ newtonEvalPoints _ _ (99 + 1) (1/10)
    rw [newtonEvalPoints]
    rw [hfp]
    norm_num
  exact ⟨hmem,
    (C9_irr_evaluation_rates_above_negOne pwTrivial flowsSameDay _ hmem).2⟩

/-- **C6** (confirmed): a per-property failure inside `portfolio_report`
leaves the failed property out of the per-property list and out of every
`portfolio_total` field, while every other property is reported in full;
the failure itself is swallowed (the function is total and the `.error`
value never appears in the result). -/
theorem C6_portfolio_failure_isolation {α ε : Type}
    (metricsOf : α → Except ε Report) (A B : α) (rA : Report) (eB : ε)
    (year month : Int)
    (hA : metricsOf A = Except.ok rA)
    (hB : metricsOf B = Except.error eB) :
    (portfolio_report metricsOf [A, B] year month).properties = [rA] ∧
    (portfolio_report metricsOf [A, B] year month).portfolio_total =
      (portfolio_report metricsOf [A] year month).portfolio_total := by
  have hlist : ([A, B].filterMap (fun p => (metricsOf p).toOption)) = [rA] := by
    simp [hA, hB, Except.toOption]
  have hlist1 : ([A].filterMap (fun p => (metricsOf p).toOption)) = [rA] := by
    simp [hA, Except.toOption]
  constructor
  · show ([A, B].filterMap (fun p => (metricsOf p).toOption)) = [rA]
    exact hlist
  · simp only [portfolio_report, hlist, hlist1]

/-- **C6** witness: a concrete two-property household where B fails. -/
theorem C6_portfolio_failure_isolation_witness :
    (portfolio_report
      (fun b : Bool =>
        if b then Except.ok (property_metrics pwTrivial ⟨2025, 1, 31⟩
          snapEmpty 2025 1 false)
        else (Except.error "boom" : Except String Report))
      [true, false] 2025 1).properties =
      [property_metrics pwTrivial ⟨2025, 1, 31⟩ snapEmpty 2025 1 false] := by
  exact (C6_portfolio_failure_isolation
    (fun b : Bool =>
      if b then Except.ok (property_metrics pwTrivial ⟨2025, 1, 31⟩
        snapEmpty 2025 1 false)
      else (Except.error "boom" : Except String Report))
    true false
    (property_metrics pwTrivial ⟨2025, 1, 31⟩ snapEmpty 2025 1 false)
    "boom" 2025 1 rfl rfl).1

/-- **C7** (corrected): the `PORTFOLIO TOTAL` row sums the ten
accumulated numeric columns (Gross Rents through Capital Expenditures),
but the `Loan Balance (End of Year)` cell of that row is written empty —
it is **not** the sum of the per-property loan balances. -/
theorem C7_tax_total_row_amended (year : Int) (p : Snapshot)
    (ps : List Snapshot) :
    let rows := (p :: ps).map (taxRowFor year)
    tax_export year (p :: ps) = some (rows ++ [taxTotalRow year (p :: ps)]) ∧
    (taxTotalRow year (p :: ps)).gross_rents =
      (rows.map (fun r => r.gross_rents)).sum ∧
    (taxTotalRow year (p :: ps)).mgmt_fees =
      (rows.map (fun r => r.mgmt_fees)).sum ∧
    (taxTotalRow year (p :: ps)).insurance =
      (rows.map (fun r => r.insurance)).sum ∧
    (taxTotalRow year (p :: ps)).property_tax =
      (rows.map (fun r => r.property_tax)).sum ∧
    (taxTotalRow year (p :: ps)).hoa =
      (rows.map (fun r => r.hoa)).sum ∧
    (taxTotalRow year (p :: ps)).repairs =
      (rows.map (fun r => r.repairs)).sum ∧
    (taxTotalRow year (p :: ps)).other_fixed =
      (rows.map (fun r => r.other_fixed)).sum ∧
    (taxTotalRow year (p :: ps)).total_opex =
      (rows.map (fun r => r.total_opex)).sum ∧
    (taxTotalRow year (p :: ps)).noi =
      (rows.map (fun r => r.noi)).sum ∧
    (taxTotalRow year (p :: ps)).capex =
      (rows.map (fun r => r.capex)).sum ∧
    (taxTotalRow year (p :: ps)).loan_balance = none := by
  refine ⟨?_, rfl, rfl, rfl, rfl, rfl, rfl, rfl, rfl, rfl, rfl, rfl⟩
  simp [tax_export]

/-- **C7** counterexample: one property with a $1,000 loan balance — the
per-property row shows `some 1000`, the column sum is 1000, yet the total
row cell is written empty (`none`). -/
theorem C7_counterexample :
    (taxRowFor 2025 snapLoanBalance).loan_balance = some 1000 ∧
    (([snapLoanBalance].map (taxRowFor 2025)).map
      (fun r => r.loan_balance.getD 0)).sum = 1000 ∧
    (taxTotalRow 2025 [snapLoanBalance]).loan_balance = none ∧
    (taxTotalRow 2025 [snapLoanBalance]).loan_balance ≠ some 1000 := by
  refine ⟨?_, ?_, rfl, by simp [taxTotalRow]⟩
  · show some (totalCurrentBalance snapLoanBalance) = some 1000
    norm_num [totalCurrentBalance, snapLoanBalance]
  · show ((([snapLoanBalance].map (taxRowFor 2025)).map
      (fun r => r.loan_balance.getD 0))).sum = 1000
    norm_num [taxRowFor, totalCurrentBalance, snapLoanBalance]

/-- **C10** (confirmed): an active `one_time` cost is annualised at its
full amount in the tax export (landing in Other Fixed Costs when its
category is none of insurance/property_tax/hoa), while the monthly
fixed-cost equivalent used by the report opex ignores it entirely — the
two paths genuinely differ. -/
theorem C10_one_time_cost_divergence (c : PropertyCostRow)
    (hact : c.is_active = true) (hfreq : c.frequency = "one_time")
    (hcat : c.category ≠ "insurance" ∧ c.category ≠ "property_tax" ∧
      c.category ≠ "hoa") :
    annual_amount c = c.amount ∧
    (∀ cs : List PropertyCostRow,
      property_costs_monthly_equiv (cs ++ [c]) =
        property_costs_monthly_equiv cs) ∧
    property_costs_monthly_equiv [c] = 0 ∧
    (∀ snap : Snapshot, snap.costs = [c] →
      otherFixedAnnual snap = c.amount) := by
  have hne : ∀ s : String, c.frequency = s → s = "one_time" := by
    intro s hs; rw [← hs, hfreq]
  have hm : c.frequency ≠ "monthly" := by rw [hfreq]; decide
  have hq : c.frequency ≠ "quarterly" := by rw [hfreq]; decide
  have ha : c.frequency ≠ "annual" := by rw [hfreq]; decide
  refine ⟨?_, ?_, ?_, ?_⟩
  · simp [annual_amount, hm, hq, ha]
  · intro cs
    rw [property_costs_monthly_equiv, List.foldl_append]
    show (if c.is_active = false then _ else _) = property_costs_monthly_equiv cs
    rw [if_neg (by simp [hact]), if_neg hm, if_neg hq, if_neg ha]
    rfl
  · rw [show ([c] : List PropertyCostRow) = [] ++ [c] from rfl]
    rw [property_costs_monthly_equiv, List.foldl_append]
    show (if c.is_active = false then _ else _) = 0
    rw [if_neg (by simp [hact]), if_neg hm, if_neg hq, if_neg ha]
    rfl
  · intro snap hsnap
    rw [otherFixedAnnual, activeCosts, hsnap]
    simp [hact, hcat.1, hcat.2.1, hcat.2.2, annual_amount, hm, hq, ha]

/-- **C10** witness: the concrete $500 one-time cost. -/
theorem C10_one_time_cost_divergence_witness :
    annual_amount oneTimeCost = 500 ∧
    property_costs_monthly_equiv [oneTimeCost] = 0 := by
  have h := C10_one_time_cost_divergence oneTimeCost rfl rfl
    (by refine ⟨?_, ?_, ?_⟩ <;> decide)
  refine ⟨h.1.trans ?_, h.2.2.1⟩
  norm_num [oneTimeCost]

end Myfintech
